import Mathlib

/-!
Verification development for the Tableau embed rich-text-editor plugin
(`src/plugin.tsx`).  The definitions below are a shallow embedding of the
plugin's pure logic: URL construction, the parameter picker's value
normalisation, the render-time component state, the drag-to-resize commit
path, the capability-guarded host callbacks, and the global listener
bookkeeping.  JavaScript numbers are modelled as rationals, JavaScript
`number | string` values as the sum type `JsSize`, and absent (`undefined`)
values as `Option`.
-/

/-- Toolbar position, the union type `"bottom" | "top" | "hidden"` of the
source. -/
inductive ToolbarPos where
  | bottom
  | top
  | hidden
deriving DecidableEq, Repr

/-- String interpolation of a `ToolbarPos` value. -/
def toolbarStr : ToolbarPos → String
  | ToolbarPos.bottom => "bottom"
  | ToolbarPos.top => "top"
  | ToolbarPos.hidden => "hidden"

/-- Characters that `encodeURIComponent` leaves unescaped:
letters, digits, and `- _ . ! ~ * ' ( )`. -/
def isUnreservedURI (c : Char) : Bool :=
  c.isAlphanum || c == '-' || c == '_' || c == '.' || c == '!' || c == '~' ||
    c == '*' || c == Char.ofNat 39 || c == '(' || c == ')'

/-- Uppercase hexadecimal digit for a value below 16. -/
def hexDigitChar (n : Nat) : Char :=
  if n < 10 then Char.ofNat (48 + n) else Char.ofNat (55 + n)

/-- UTF-8 bytes of a code point (standard encoding, as JavaScript uses for
percent-escaping). -/
def utf8Bytes (n : Nat) : List Nat :=
  if n < 128 then [n]
  else if n < 2048 then [192 + n / 64, 128 + n % 64]
  else if n < 65536 then [224 + n / 4096, 128 + (n / 64) % 64, 128 + n % 64]
  else [240 + n / 262144, 128 + (n / 4096) % 64, 128 + (n / 64) % 64,
    128 + n % 64]

/-- Percent-escaping of a single character as `encodeURIComponent` does it:
unreserved characters pass through, everything else becomes `%XX` per UTF-8
byte. -/
def encChar (c : Char) : List Char :=
  if isUnreservedURI c then [c]
  else (utf8Bytes c.toNat).flatMap
    (fun b => ['%', hexDigitChar (b / 16), hexDigitChar (b % 16)])

/-- Model of JavaScript `encodeURIComponent`. -/
def encodeURIComponent (s : String) : String :=
  String.mk (s.data.flatMap encChar)

/-- Model of `server.replace(/\/$/, "")`: remove a single trailing slash when
present. -/
def jsStripTrailingSlash (s : String) : String :=
  match s.data.reverse with
  | '/' :: rest => String.mk rest.reverse
  | _ => s

/-- The source function `buildTableauUrl` (plugin.tsx lines 29-44): build the
viewer URL from server, workbook, view and the optional toolbar position. -/
def buildTableauUrl (server workbook view : String)
    (toolbar : Option ToolbarPos) : String :=
  let base := jsStripTrailingSlash server ++ "/views/" ++
    encodeURIComponent workbook ++ "/" ++ encodeURIComponent view
  base ++ "?:embed=y&:showVizHome=no" ++
    (match toolbar with
     | none => ""
     | some m => "&:toolbar=" ++ toolbarStr m)

/-- The URL shape as claim C4 describes it, amended to the colon-prefixed
directives the code actually emits: path is the server with one trailing
slash stripped, then `/views/`, the percent-encoded workbook and view; the
query always holds `:embed=y` and `:showVizHome=no` and gains a toolbar
directive exactly when a toolbar mode is supplied. -/
def specViewerUrl (server workbook view : String)
    (toolbarMode : Option ToolbarPos) : String :=
  let path := jsStripTrailingSlash server ++ "/views/" ++
    encodeURIComponent workbook ++ "/" ++ encodeURIComponent view
  let query := ":embed=y&:showVizHome=no" ++
    (match toolbarMode with
     | none => ""
     | some m => "&:toolbar=" ++ toolbarStr m)
  path ++ "?" ++ query

/-- Does `hay` start with `needle` (character lists)? -/
def listStartsWith : List Char → List Char → Bool
  | [], _ => true
  | _ :: _, [] => false
  | a :: as, b :: bs => a == b && listStartsWith as bs

/-- Substring test over strings, used to state what a built URL contains. -/
def strContains (hay needle : String) : Bool :=
  (List.range (hay.data.length + 1)).any
    (fun i => listStartsWith needle.data (hay.data.drop i))

theorem strAppendEmpty (a : String) : a ++ "" = a := by
  cases a with
  | mk data =>
    show String.append ⟨data⟩ ⟨[]⟩ = ⟨data⟩
    simp [String.append]

theorem strAppendAssoc (a b c : String) : a ++ b ++ c = a ++ (b ++ c) := by
  cases a with
  | mk da =>
    cases b with
    | mk db =>
      cases c with
      | mk dc =>
        show String.append (String.append ⟨da⟩ ⟨db⟩) ⟨dc⟩ =
          String.append ⟨da⟩ (String.append ⟨db⟩ ⟨dc⟩)
        simp [String.append]

theorem qmarkEmbed :
    ("?" : String) ++ ":embed=y&:showVizHome=no" =
      "?:embed=y&:showVizHome=no" := by
  decide

theorem qmarkEmbedAppend (x : String) :
    ("?" : String) ++ (":embed=y&:showVizHome=no" ++ x) =
      "?:embed=y&:showVizHome=no" ++ x := by
  rw [← strAppendAssoc, qmarkEmbed]

/-- C5: building the URL for the Superstore Overview preset parameters with
no toolbar mode yields exactly the documented string. -/
theorem build_url_superstore :
    buildTableauUrl "https://public.tableau.com/" "Superstore_116" "Overview"
      none =
    "https://public.tableau.com/views/Superstore_116/Overview?:embed=y&:showVizHome=no" := by
  decide

/-- C4 (counterexample): the query string the code emits is
`?:embed=y&:showVizHome=no`, which never contains the text `embed=yes`
that the claim asserts is always included. -/
theorem built_url_lacks_embed_yes :
    strContains
      (buildTableauUrl "https://public.tableau.com/" "Superstore_116"
        "Overview" none)
      "embed=yes" = false := by
  decide

/-- C4 (amended): the built URL is the server with one trailing slash
stripped, `/views/`, the percent-encoded workbook and view, and a query that
always holds the colon-prefixed directives `:embed=y` and `:showVizHome=no`,
with a toolbar directive appended only when a toolbar mode is supplied;
supplying the hidden mode appends `&:toolbar=hidden` exactly once. -/
theorem build_url_shape (s w v : String) (tb : Option ToolbarPos) :
    buildTableauUrl s w v tb = specViewerUrl s w v tb ∧
    buildTableauUrl s w v (some ToolbarPos.hidden) =
      buildTableauUrl s w v none ++ "&:toolbar=hidden" := by
  constructor
  · cases tb with
    | none =>
      simp only [buildTableauUrl, specViewerUrl, strAppendEmpty,
        strAppendAssoc, qmarkEmbedAppend, qmarkEmbed]
    | some m =>
      simp only [buildTableauUrl, specViewerUrl, strAppendEmpty,
        strAppendAssoc, qmarkEmbedAppend, qmarkEmbed]
  · simp only [buildTableauUrl, strAppendEmpty, strAppendAssoc, toolbarStr]
    have h : ("&:toolbar=" : String) ++ "hidden" = "&:toolbar=hidden" := by
      decide
    rw [h]

/-- JavaScript value of type `number | string`, as used for the node's
`width` attribute (and for host-supplied attribute values in general). -/
inductive JsSize where
  | num (q : ℚ)
  | str (s : String)
deriving DecidableEq, Repr

/-- Trim leading and trailing whitespace from a character list (models the
trimming JavaScript applies in `String.prototype.trim` and in `Number`). -/
def listTrim (l : List Char) : List Char :=
  ((l.dropWhile (fun c => c.isWhitespace)).reverse.dropWhile
    (fun c => c.isWhitespace)).reverse

/-- Model of `value.trim()`. -/
def jsTrim (s : String) : String :=
  String.mk (listTrim s.data)

/-- Model of the regular-expression test `/%$/.test(s)` and of
`s.endsWith("%")`: does the string end with a percent sign? -/
def strEndsPercent (s : String) : Bool :=
  match s.data.reverse with
  | '%' :: _ => true
  | _ => false

/-- Numeric value of a list of decimal digit characters. -/
def digitsVal (l : List Char) : Nat :=
  l.foldl (fun a c => 10 * a + (c.toNat - 48)) 0

/-- Parse an unsigned decimal literal (digits with an optional fractional
part).  Returns `none` for anything else. -/
def parseUnsignedDec (l : List Char) : Option ℚ :=
  let intPart := l.takeWhile (fun c => c.isDigit)
  let rest := l.drop intPart.length
  match rest with
  | [] => if intPart.isEmpty then none else some (digitsVal intPart : ℚ)
  | '.' :: frac =>
    if frac.all (fun c => c.isDigit) && (!intPart.isEmpty || !frac.isEmpty)
    then some ((digitsVal intPart : ℚ) +
      (digitsVal frac : ℚ) / ((10 : ℚ) ^ frac.length))
    else none
  | _ => none

/-- Model of JavaScript `Number(s)` on a string, restricted to the decimal
literals the modelled flows produce: whitespace-only strings give `0`, an
optionally signed decimal literal gives its value, anything else gives
`none`, the stand-in for `NaN`. -/
def jsToNumber (s : String) : Option ℚ :=
  match listTrim s.data with
  | [] => some 0
  | '+' :: rest => parseUnsignedDec rest
  | '-' :: rest => (parseUnsignedDec rest).map (fun q => -q)
  | l => parseUnsignedDec l

/-- Model of the JavaScript idiom `n || d` on numbers: `0` and `NaN`
(`none`) are falsy and give the default. -/
def jsOrNum (v : Option ℚ) (d : ℚ) : ℚ :=
  match v with
  | none => d
  | some q => if q = 0 then d else q

/-- Model of the JavaScript idiom `s || d` on strings (with `null` folded
in as `none`): `null` and the empty string are falsy and give the
default. -/
def jsOrStr (v : Option String) (d : String) : String :=
  match v with
  | none => d
  | some s => if s = "" then d else s

/-- Model of `Number(v)` on a `number | string` value. -/
def jsNumberOfSize (v : JsSize) : Option ℚ :=
  match v with
  | JsSize.num q => some q
  | JsSize.str s => jsToNumber s

/-- Model of JavaScript `Math.round`: round half toward positive
infinity. -/
def jsRound (q : ℚ) : ℚ :=
  ((Int.floor (q + 1 / 2) : ℤ) : ℚ)

/-- The registered plugin name, used as the node type. -/
def pluginName : String := "tableau_embed"

/-- The attribute bag of a Tableau embed node (`TableauParams` in the
source).  `width` and `height` are JavaScript values and may have been
supplied by the host, so `height` is modelled like `width` as
`number | string`; a malformed host-provided height is a non-numeric
string. -/
structure TableauAttrs where
  server : String
  workbook : String
  view : String
  width : JsSize
  height : JsSize
  toolbar : Option ToolbarPos
  inl : Bool
  label : Option String
deriving DecidableEq, Repr

/-- The document node this plugin owns (`TableauEmbedNode` in the source);
children are the text leaves required by the host schema. -/
structure TableauEmbedNode where
  type : String
  attrs : TableauAttrs
  children : List String
deriving DecidableEq, Repr

/-- A complete parameter set as returned by `openTableauPicker` (the source
always fills every field before returning). -/
structure TableauParams where
  server : String
  workbook : String
  view : String
  width : JsSize
  height : ℚ
  toolbar : ToolbarPos
  inl : Bool
  label : String
deriving DecidableEq, Repr

/-- The node built by `onClick` from a picked parameter set (plugin.tsx
lines 495-508); the exec handler builds the identical node shape (lines
525-538). -/
def mkNodeFromPicked (p : TableauParams) : TableauEmbedNode :=
  { type := pluginName
    attrs :=
      { server := p.server
        workbook := p.workbook
        view := p.view
        width := p.width
        height := JsSize.num p.height
        toolbar := some p.toolbar
        inl := p.inl
        label := some p.label }
    children := [""] }

/-- The custom flow of `openTableauPicker` (plugin.tsx lines 119-165).
Each argument is the value the corresponding `window.prompt` call
returned (`none` for `null`).  The prompt defaults shown to the user do
not affect the result, so the `defaults` argument of the source only
matters through the values the user actually submits. -/
def pickerCustom (serverIn workbookIn viewIn widthIn heightIn toolbarIn
    inlineIn : Option String) : Option TableauParams :=
  let server := jsOrStr serverIn ""
  if server = "" then none else
  let workbook := jsOrStr workbookIn ""
  if workbook = "" then none else
  let view := jsOrStr viewIn ""
  if view = "" then none else
  let widthStr := jsOrStr widthIn "100%"
  let heightStr := jsOrStr heightIn "520"
  let toolbarRaw := jsOrStr toolbarIn "bottom"
  let inl := String.mk ((jsOrStr inlineIn "n").data.map Char.toLower) = "y"
  let width : JsSize :=
    if strEndsPercent widthStr then JsSize.str widthStr
    else match jsToNumber widthStr with
      | some n => if n = 0 then JsSize.str "100%" else JsSize.num n
      | none => JsSize.str "100%"
  let height : ℚ := jsOrNum (jsToNumber heightStr) 520
  let toolbar : ToolbarPos :=
    if toolbarRaw = "top" then ToolbarPos.top
    else if toolbarRaw = "hidden" then ToolbarPos.hidden
    else ToolbarPos.bottom
  some
    { server := server
      workbook := workbook
      view := view
      width := width
      height := height
      toolbar := toolbar
      inl := inl
      label := workbook ++ "/" ++ view }

/-- A call made to one of the host callbacks. -/
inductive HostCall where
  | update (n : TableauEmbedNode)
  | insert (n : TableauEmbedNode)
  | delete (n : TableauEmbedNode)
  | exec
deriving DecidableEq, Repr

/-- The drag baseline stored in `dragRef.current` by `onDragStart`. -/
structure DragData where
  startX : ℚ
  startY : ℚ
  startW : ℚ
  startH : ℚ
deriving DecidableEq, Repr

/-- The local component state of `TableauElement`: the `width` and `height`
`useState` cells and the `dragRef` ref. -/
structure RenderState where
  width : JsSize
  height : ℚ
  dragRef : Option DragData
deriving DecidableEq, Repr

/-- Initial local state of a render of `TableauElement` for a node:
`useState(widthAttr)` and `useState(Number(heightAttr) || 520)` (plugin.tsx
lines 185-186). -/
def initRenderState (el : TableauEmbedNode) : RenderState :=
  { width := el.attrs.width
    height := jsOrNum (jsNumberOfSize el.attrs.height) 520
    dragRef := none }

/-- The node `persistSize` hands to `rte.updateNode`: spread of the element
with only `attrs.width` and `attrs.height` replaced (plugin.tsx lines
194-201). -/
def persistNode (el : TableauEmbedNode) (w : JsSize) (h : ℚ) :
    TableauEmbedNode :=
  { el with attrs := { el.attrs with width := w, height := JsSize.num h } }

/-- Outcome of a commit: the new local state, the node as the host now
holds it, and the host callbacks that were invoked. -/
structure CommitResult where
  state : RenderState
  node : TableauEmbedNode
  calls : List HostCall
deriving DecidableEq, Repr

/-- `persistSize` (plugin.tsx lines 189-203): always update the local
state; invoke `rte.updateNode` only when it is a function. -/
def persistSize (el : TableauEmbedNode) (hasUpdate : Bool)
    (s : RenderState) (w : JsSize) (h : ℚ) : CommitResult :=
  { state := { s with width := w, height := h }
    node := if hasUpdate then persistNode el w h else el
    calls := if hasUpdate then [HostCall.update (persistNode el w h)] else [] }

/-- The width field's `onChange` handler (plugin.tsx lines 310-317): a
trimmed value ending in `%` is stored as a string, a numeric value as a
number, and a `NaN` input leaves the state alone. -/
def onWidthChange (s : RenderState) (v : String) : RenderState :=
  let t := jsTrim v
  if strEndsPercent t then { s with width := JsSize.str t }
  else match jsToNumber t with
    | some n => { s with width := JsSize.num n }
    | none => s

/-- The height field's `onChange` handler (plugin.tsx line 341):
`setHeight(Number(v) || 520)`. -/
def onHeightChange (s : RenderState) (v : String) : RenderState :=
  { s with height := jsOrNum (jsToNumber v) 520 }

/-- The width field's `onBlur` commit (plugin.tsx lines 318-324): a numeric
width is rounded and clamped to at least 240, a string width passes through
(`width || "100%"`), then both go through `persistSize`. -/
def onWidthBlur (el : TableauEmbedNode) (hasUpdate : Bool)
    (s : RenderState) : CommitResult :=
  let w : JsSize :=
    match s.width with
    | JsSize.num n => JsSize.num (max 240 (jsRound n))
    | JsSize.str t => if t = "" then JsSize.str "100%" else JsSize.str t
  persistSize el hasUpdate s w s.height

/-- The height field's `onBlur` commit (plugin.tsx line 342):
`persistSize(width, Math.max(200, height))`. -/
def onHeightBlur (el : TableauEmbedNode) (hasUpdate : Bool)
    (s : RenderState) : CommitResult :=
  persistSize el hasUpdate s s.width (max 200 s.height)

/-- The fit-width quick action (plugin.tsx line 267):
`persistSize("100%", height)`. -/
def setFitWidth (el : TableauEmbedNode) (hasUpdate : Bool)
    (s : RenderState) : CommitResult :=
  persistSize el hasUpdate s (JsSize.str "100%") s.height

/-- A height preset quick action (plugin.tsx line 268):
`persistSize(width, h)`. -/
def setHeightPreset (el : TableauEmbedNode) (hasUpdate : Bool)
    (s : RenderState) (h : ℚ) : CommitResult :=
  persistSize el hasUpdate s s.width h

/-- `onDragStart` (plugin.tsx lines 216-230): capture the pointer position
and, as the width baseline, the numeric width or else the measured
container width (`?? 0`); the height baseline is the current height. -/
def onDragStart (s : RenderState) (measured : Option ℚ) (cx cy : ℚ) :
    RenderState :=
  let startW :=
    match s.width with
    | JsSize.num n => n
    | JsSize.str _ => measured.getD 0
  { s with dragRef := some (DragData.mk cx cy startW s.height) }

/-- `onDragMove` (plugin.tsx lines 232-243): with an active drag, set the
local width to `max(240, round(startW + dx))` and the local height to
`max(200, round(startH + dy))`; without one, do nothing. -/
def onDragMove (s : RenderState) (cx cy : ℚ) : RenderState :=
  match s.dragRef with
  | none => s
  | some d =>
    { s with
        width := JsSize.num (max 240 (jsRound (d.startW + (cx - d.startX))))
        height := max 200 (jsRound (d.startH + (cy - d.startY))) }

/-- `onDragEnd` (plugin.tsx lines 245-257).  `capturedW` and `capturedH`
are the `width` and `height` the handler's closure holds: the listener
attached by `onDragStart` is the function object of the render in which
the drag started, so these are the values the state cells had at that
render, while `dragRef` is a mutable ref and is always current.  A
numeric captured width is clamped to at least 240; a string captured
width is replaced by the measured container width (`?? 520`), with no
clamp; the captured height is clamped to at least 200; the result goes
through `persistSize` and the drag session ends. -/
def onDragEnd (el : TableauEmbedNode) (hasUpdate : Bool) (s : RenderState)
    (capturedW : JsSize) (capturedH : ℚ) (measured : Option ℚ) :
    CommitResult :=
  match s.dragRef with
  | none => { state := s, node := el, calls := [] }
  | some _ =>
    let finalW : JsSize :=
      match capturedW with
      | JsSize.num n => JsSize.num (max 240 n)
      | JsSize.str _ => JsSize.num (measured.getD 520)
    let finalH := max 200 capturedH
    let r := persistSize el hasUpdate s finalW finalH
    { r with state := { r.state with dragRef := none } }

/-- One whole drag interaction: pointer-down at `(cx, cy)`, a finite list
of pointer-moves, then pointer-up.  The listeners fired during the drag
are the closures of the render in which the drag started, so the captured
width and height passed to `onDragEnd` are the pre-drag values
`pre.width` and `pre.height`. -/
def runDrag (el : TableauEmbedNode) (hasUpdate : Bool) (pre : RenderState)
    (cx cy : ℚ) (measStart : Option ℚ) (moves : List (ℚ × ℚ))
    (measEnd : Option ℚ) : CommitResult :=
  let s1 := onDragStart pre measStart cx cy
  let s2 := moves.foldl (fun st p => onDragMove st p.1 p.2) s1
  onDragEnd el hasUpdate s2 pre.width pre.height measEnd

/-- The `src` a render of `TableauElement` gives its iframe (plugin.tsx
lines 168-205): `none` when the element's type is not the plugin name (the
element renders only its children), otherwise the URL built from the
node's attributes with the toolbar defaulting to `bottom`. -/
def renderSrc (rteName : Option String) (el : TableauEmbedNode) :
    Option String :=
  let pn := jsOrStr rteName "tableau_embed"
  if el.type = pn then
    some (buildTableauUrl el.attrs.server el.attrs.workbook el.attrs.view
      (some (el.attrs.toolbar.getD ToolbarPos.bottom)))
  else none

/-- The `exec` handler registered with `Tableau.on` (plugin.tsx lines
519-545).  `current` is `ctx.element`, `picked` the picker result, and the
flags say whether `ctx.updateNode` and `ctx.insertNode` are functions.
When the current element's type is the plugin name and `updateNode` is a
function the node is updated (the spread `{ ...current, ...updated }`
overwrites every field of the node record, so the updated node is
`updated`); otherwise, when `insertNode` is a function, a fresh node is
inserted. -/
def execHandler (current : Option TableauEmbedNode)
    (picked : Option TableauParams) (hasUpdate hasInsert : Bool) :
    List HostCall :=
  match picked with
  | none => []
  | some p =>
    let updated := mkNodeFromPicked p
    match current with
    | some c =>
      if (c.type == pluginName) && hasUpdate then [HostCall.update updated]
      else if hasInsert then [HostCall.insert updated] else []
    | none => if hasInsert then [HostCall.insert updated] else []

/-- The toolbar `onClick` handler (plugin.tsx lines 491-513): when the
picker returns parameters and `rte.insertNode` is a function, the built
node is inserted; otherwise nothing is called. -/
def onClickRun (picked : Option TableauParams) (hasInsert : Bool) :
    List HostCall :=
  match picked with
  | none => []
  | some p => if hasInsert then [HostCall.insert (mkNodeFromPicked p)] else []

/-- The remove action (plugin.tsx lines 271-272): call `rte.deleteNode`
only when it is a function. -/
def removeOp (hasDelete : Bool) (el : TableauEmbedNode) : List HostCall :=
  if hasDelete then [HostCall.delete el] else []

/-- The edit action (plugin.tsx line 270): call `rte.exec` only when it is
a function. -/
def editOp (hasExec : Bool) : List HostCall :=
  if hasExec then [HostCall.exec] else []

/-- Bookkeeping for the global mousemove/mouseup listener pair.  Each
render of the component creates fresh `onDragMove` / `onDragEnd` function
objects; a listener is therefore identified by the index of the render
that created it.  `movers` and `uppers` are the registration lists of
`window` for mousemove and mouseup; `dragRef` is the shared mutable ref.
The `useEffect` with an empty dependency list runs once, so the unmount
cleanup holds the function objects of render `0`. -/
structure ListenerState where
  idx : Nat
  movers : List Nat
  uppers : List Nat
  dragRef : Bool
deriving DecidableEq, Repr

/-- State right after mounting the component: one render has happened
(index `0`), nothing attached, no drag. -/
def initListenerState : ListenerState :=
  { idx := 0, movers := [], uppers := [], dragRef := false }

/-- `window.addEventListener` is idempotent per function identity. -/
def attachListener (l : List Nat) (i : Nat) : List Nat :=
  if l.contains i then l else l ++ [i]

/-- External events driving the listener bookkeeping. -/
inductive UiEvent where
  | render
  | handleMouseDown
  | windowMouseUp
  | teardown
deriving DecidableEq, Repr

/-- Dispatch of a window mouseup: the attached mouseup closures fire in
registration order; the closure of render `i` is `onDragEnd` of that
render: with an active drag it commits, clears `dragRef`, and removes its
own render's mousemove and mouseup registrations; with no active drag it
returns at once and removes nothing (plugin.tsx line 246).  A listener
already removed during this dispatch is not invoked. -/
def stepMouseUp (s : ListenerState) : ListenerState :=
  s.uppers.foldl
    (fun st i =>
      if st.uppers.contains i then
        if st.dragRef then
          { st with
              dragRef := false
              movers := st.movers.erase i
              uppers := st.uppers.erase i }
        else st
      else st)
    s

/-- One step of the listener bookkeeping.  `render` bumps the identity
index; `handleMouseDown` is `onDragStart`: it attaches the current
render's move and up closures and fills `dragRef`; `teardown` is the
`useEffect` cleanup: it removes the registrations of render `0`, the only
function objects it holds. -/
def stepUi (s : ListenerState) : UiEvent → ListenerState
  | UiEvent.render => { s with idx := s.idx + 1 }
  | UiEvent.handleMouseDown =>
    { s with
        movers := attachListener s.movers s.idx
        uppers := attachListener s.uppers s.idx
        dragRef := true }
  | UiEvent.windowMouseUp => stepMouseUp s
  | UiEvent.teardown =>
    { s with movers := s.movers.erase 0, uppers := s.uppers.erase 0 }

/-- Run the listener bookkeeping from the mounted state. -/
def runUi (evs : List UiEvent) : ListenerState :=
  evs.foldl stepUi initListenerState

/-- A sample complete parameter set, as the picker produces for the first
preset. -/
def sampleParams : TableauParams :=
  { server := "https://public.tableau.com"
    workbook := "Superstore_116"
    view := "Overview"
    width := JsSize.str "100%"
    height := 520
    toolbar := ToolbarPos.bottom
    inl := false
    label := "Superstore_116/Overview" }

/-- The node inserted for `sampleParams`. -/
def sampleNode : TableauEmbedNode :=
  mkNodeFromPicked sampleParams

/-- A node of a foreign type, as the exec context may carry. -/
def paragraphNode : TableauEmbedNode :=
  { sampleNode with type := "paragraph" }

/-- A local state whose width is the concrete number 300 and whose height
is 50. -/
def preNum : RenderState :=
  { width := JsSize.num 300, height := 50, dragRef := none }

/-- A local state whose width is the percentage string the picker default
produces. -/
def prePct : RenderState :=
  { width := JsSize.str "100%", height := 520, dragRef := none }

theorem dragMove_dragRef (s : RenderState) (cx cy : ℚ) :
    (onDragMove s cx cy).dragRef = s.dragRef := by
  cases hd : s.dragRef <;> simp [onDragMove, hd]

theorem dragMoves_dragRef (moves : List (ℚ × ℚ)) (s : RenderState) :
    (moves.foldl (fun st p => onDragMove st p.1 p.2) s).dragRef =
      s.dragRef := by
  induction moves generalizing s with
  | nil => rfl
  | cons m rest ih =>
    simpa [List.foldl, dragMove_dragRef] using ih (onDragMove s m.1 m.2)

/-- C1 (counterexample): an exec invocation on an element whose type is
`paragraph`, with the picker returning parameters and `insertNode`
available, invokes the host `insertNode` callback, contradicting the claim
that no host callback among update, delete and insert is invoked. -/
theorem exec_on_foreign_node_inserts :
    paragraphNode.type ≠ pluginName ∧
    execHandler (some paragraphNode) (some sampleParams) true true =
      [HostCall.insert (mkNodeFromPicked sampleParams)] := by
  constructor
  · decide
  · rfl

/-- C1 (amended): for every exec invocation where the current element's
type differs from the registered plugin name, the host `updateNode` and
`deleteNode` callbacks are never invoked; `insertNode` is invoked, with a
freshly built node, exactly when the picker returns a parameter set and
`insertNode` is a function. -/
theorem exec_foreign_node_no_update_delete (c : TableauEmbedNode)
    (picked : Option TableauParams) (hu hi : Bool)
    (h : c.type ≠ pluginName) :
    execHandler (some c) picked hu hi =
      match picked with
      | none => []
      | some p =>
        if hi then [HostCall.insert (mkNodeFromPicked p)] else [] := by
  cases picked with
  | none => rfl
  | some p =>
    have hb : (c.type == pluginName) = false := by
      simpa using h
    simp [execHandler, hb]

/-- Witness for `exec_foreign_node_no_update_delete` at a concrete foreign
node and a cancelled picker. -/
theorem exec_foreign_node_no_update_delete_witness :
    execHandler (some paragraphNode) none true true = [] :=
  exec_foreign_node_no_update_delete paragraphNode none true true (by decide)

/-- C2 (amended): the commit at drag end uses the width and height the
listeners captured when the drag started, whatever the pointer-moves did:
the committed height is `max 200` of the pre-drag height, hence at least
200; a numeric pre-drag width commits `max 240` of itself, hence at least
240; a string (percentage) pre-drag width commits the measured container
width, 520 when unavailable, with no lower clamp. -/
theorem drag_commit_clamped (el : TableauEmbedNode) (pre : RenderState)
    (cx cy : ℚ) (mS : Option ℚ) (moves : List (ℚ × ℚ)) (mE : Option ℚ) :
    ((runDrag el true pre cx cy mS moves mE).node.attrs.height =
        JsSize.num (max 200 pre.height) ∧
      200 ≤ max 200 pre.height) ∧
    (∀ n, pre.width = JsSize.num n →
      (runDrag el true pre cx cy mS moves mE).node.attrs.width =
        JsSize.num (max 240 n) ∧ 240 ≤ max 240 n) ∧
    (∀ t, pre.width = JsSize.str t →
      (runDrag el true pre cx cy mS moves mE).node.attrs.width =
        JsSize.num (mE.getD 520)) := by
  obtain ⟨d, hd⟩ : ∃ d,
      (moves.foldl (fun st p => onDragMove st p.1 p.2)
        (onDragStart pre mS cx cy)).dragRef = some d := by
    rw [dragMoves_dragRef]
    exact ⟨_, rfl⟩
  refine ⟨⟨?_, le_max_left _ _⟩, ?_, ?_⟩
  · simp [runDrag, onDragEnd, hd, persistSize, persistNode]
  · intro n hn
    refine ⟨?_, le_max_left _ _⟩
    simp [runDrag, onDragEnd, hd, hn, persistSize, persistNode]
  · intro t ht
    simp [runDrag, onDragEnd, hd, ht, persistSize, persistNode]

/-- Witness for `drag_commit_clamped`: a drag from the numeric width 300
and height 50, with a large negative vertical move, still commits width
300 and height 200. -/
theorem drag_commit_clamped_witness :
    (runDrag sampleNode true preNum 0 0 none [(5, -900)] none).node.attrs.height =
      JsSize.num (max 200 (50 : ℚ)) ∧
    (200 : ℚ) ≤ max 200 (50 : ℚ) ∧
    (runDrag sampleNode true preNum 0 0 none [(5, -900)] none).node.attrs.width =
      JsSize.num (max 240 (300 : ℚ)) ∧
    (240 : ℚ) ≤ max 240 (300 : ℚ) := by
  obtain ⟨⟨h1, h2⟩, h3, _⟩ :=
    drag_commit_clamped sampleNode preNum 0 0 none [(5, -900)] none
  exact ⟨h1, h2, (h3 300 rfl).1, (h3 300 rfl).2⟩

/-- C2 (counterexample): a drag that starts from the percentage width
`100%` commits, at drag end, the measured container width with no clamp:
with a container measuring 100 pixels the committed width is 100, below
the claimed minimum of 240, whatever the pointer deltas were. -/
theorem drag_commit_width_below_min :
    (runDrag sampleNode true prePct 0 0 (some 800) [(1000, 300)]
        (some 100)).node.attrs.width = JsSize.num 100 ∧
    ¬ (240 ≤ (100 : ℚ)) := by
  constructor
  · decide
  · norm_num

/-- C7 (code bug): after one re-render, a mousedown on the resize handle
attaches the listeners of render 1, but the unmount cleanup holds only the
function objects of render 0, so tearing the component down mid-drag
leaves the render-1 listeners attached; a drag begun at render 0 is
cleaned up by its own mouseup as a control. -/
theorem teardown_leaves_listeners :
    (runUi [UiEvent.render, UiEvent.handleMouseDown,
        UiEvent.teardown]).movers = [1] ∧
    (runUi [UiEvent.render, UiEvent.handleMouseDown,
        UiEvent.teardown]).uppers = [1] ∧
    (runUi [UiEvent.handleMouseDown, UiEvent.windowMouseUp,
        UiEvent.teardown]).movers = [] ∧
    (runUi [UiEvent.handleMouseDown, UiEvent.windowMouseUp,
        UiEvent.teardown]).uppers = [] := by
  decide

/-- The custom picker result for width input `100` and height input `100`:
both pass through as unclamped numbers. -/
def pickedSmall : Option TableauParams :=
  pickerCustom (some "https://public.tableau.com") (some "Superstore_116")
    (some "Overview") (some "100") (some "100") (some "bottom") (some "n")

/-- The custom picker result for a malformed (non-numeric) height input. -/
def malformedHeightParams : TableauParams :=
  { server := "https://public.tableau.com"
    workbook := "Superstore_116"
    view := "Overview"
    width := JsSize.str "100%"
    height := 520
    toolbar := ToolbarPos.bottom
    inl := false
    label := "Superstore_116/Overview" }

/-- C3 (counterexample): the picker-driven insert path does not clamp:
typing width `100` and height `100` into the custom picker yields a node
whose width is the number 100 (neither at least 240 nor a percentage
string) and whose height is 100, below 200. -/
theorem picker_insert_breaks_size_invariant :
    pickedSmall.map (fun p => (mkNodeFromPicked p).attrs.width) =
      some (JsSize.num 100) ∧
    pickedSmall.map (fun p => (mkNodeFromPicked p).attrs.height) =
      some (JsSize.num 100) ∧
    ¬ (240 ≤ (100 : ℚ)) ∧ ¬ (200 ≤ (100 : ℚ)) := by
  refine ⟨by decide, by decide, by norm_num, by norm_num⟩

/-- C3 (amended): the field-blur commits and the quick actions re-clamp —
a height blur commits `max 200` of the local height, a numeric width blur
commits `max 240` of its rounding, fit-width commits the string `100%`,
and a height preset commits its fixed value of at least 200 — and a
malformed (non-numeric) height in the picker falls back to the default
520; but the picker-driven insert/edit path applies no clamps to numeric
width and height values (see the counterexample). -/
theorem commit_clamping_paths (el : TableauEmbedNode) (s : RenderState)
    (sIn wIn vIn widIn hIn tIn iIn : Option String) (p : TableauParams) :
    ((onHeightBlur el true s).node.attrs.height =
        JsSize.num (max 200 s.height) ∧ 200 ≤ max 200 s.height) ∧
    (∀ n, s.width = JsSize.num n →
      (onWidthBlur el true s).node.attrs.width =
        JsSize.num (max 240 (jsRound n)) ∧ 240 ≤ max 240 (jsRound n)) ∧
    (setFitWidth el true s).node.attrs.width = JsSize.str "100%" ∧
    (∀ h : ℚ, h = 400 ∨ h = 520 ∨ h = 680 →
      (setHeightPreset el true s h).node.attrs.height = JsSize.num h ∧
        200 ≤ h) ∧
    (jsToNumber (jsOrStr hIn "520") = none →
      pickerCustom sIn wIn vIn widIn hIn tIn iIn = some p →
      p.height = 520) := by
  refine ⟨⟨?_, le_max_left _ _⟩, ?_, ?_, ?_, ?_⟩
  · simp [onHeightBlur, persistSize, persistNode]
  · intro n hn
    refine ⟨?_, le_max_left _ _⟩
    simp [onWidthBlur, hn, persistSize, persistNode]
  · rfl
  · intro h hh
    refine ⟨rfl, ?_⟩
    rcases hh with rfl | rfl | rfl <;> norm_num
  · intro hmal hp
    simp only [pickerCustom] at hp
    split at hp
    · exact Option.noConfusion hp
    · split at hp
      · exact Option.noConfusion hp
      · split at hp
        · exact Option.noConfusion hp
        · obtain rfl := Option.some.inj hp
          simp [hmal, jsOrNum]

/-- Witness for `commit_clamping_paths` at concrete state and inputs. -/
theorem commit_clamping_paths_witness :
    (onHeightBlur sampleNode true preNum).node.attrs.height =
      JsSize.num (max 200 (50 : ℚ)) ∧
    (onWidthBlur sampleNode true preNum).node.attrs.width =
      JsSize.num (max 240 (jsRound 300)) ∧
    (setFitWidth sampleNode true preNum).node.attrs.width =
      JsSize.str "100%" ∧
    (setHeightPreset sampleNode true preNum 400).node.attrs.height =
      JsSize.num 400 ∧
    malformedHeightParams.height = 520 := by
  obtain ⟨⟨h1, _⟩, h2, h3, h4, h5⟩ :=
    commit_clamping_paths sampleNode preNum
      (some "https://public.tableau.com") (some "Superstore_116")
      (some "Overview") none (some "abc") none none malformedHeightParams
  exact ⟨h1, (h2 300 rfl).1, h3, (h4 400 (Or.inl rfl)).1,
    h5 (by decide) (by decide)⟩

/-- C6: inserting a node built from a complete picker parameter set and
rendering it under the registered plugin name yields an iframe src equal
to the URL built from that parameter set. -/
theorem insert_render_roundtrip (p : TableauParams) :
    renderSrc (some pluginName) (mkNodeFromPicked p) =
      some (buildTableauUrl p.server p.workbook p.view (some p.toolbar)) := by
  simp [renderSrc, mkNodeFromPicked, jsOrStr, pluginName]

/-- C8 (counterexample): with a pending unblurred height edit (local
height 150, committed height 520), invoking fit-width commits height 150,
so the committed height changes. -/
theorem fit_width_changes_height :
    sampleNode.attrs.height = JsSize.num 520 ∧
    (setFitWidth sampleNode true
        (onHeightChange (initRenderState sampleNode) "150")).node.attrs.height =
      JsSize.num 150 ∧
    JsSize.num (150 : ℚ) ≠ JsSize.num (520 : ℚ) := by
  refine ⟨rfl, by decide, by decide⟩

/-- C8 (amended): every fit-width invocation goes through `persistSize`
(the drag-end commit path), commits the width string `100%`, and commits
the current local height; the committed height is unchanged exactly when
the local height agrees with the node's committed height. -/
theorem fit_width_commit (el : TableauEmbedNode) (s : RenderState) :
    setFitWidth el true s =
      persistSize el true s (JsSize.str "100%") s.height ∧
    (setFitWidth el true s).node.attrs.width = JsSize.str "100%" ∧
    (setFitWidth el true s).node.attrs.height = JsSize.num s.height ∧
    (el.attrs.height = JsSize.num s.height →
      (setFitWidth el true s).node.attrs.height = el.attrs.height) := by
  refine ⟨rfl, rfl, rfl, fun h => ?_⟩
  simp [setFitWidth, persistSize, persistNode, h]

/-- Witness for `fit_width_commit` with the local height in sync with the
node. -/
theorem fit_width_commit_witness :
    (setFitWidth sampleNode true
        (initRenderState sampleNode)).node.attrs.height =
      sampleNode.attrs.height :=
  (fit_width_commit sampleNode (initRenderState sampleNode)).2.2.2 (by decide)

/-- C9: with the respective host capability missing, a size commit invokes
nothing and leaves the node as it was, and the remove, edit, and insert
operations invoke nothing; all four operations are total functions, so no
error is raised. -/
theorem missing_capability_noop (el : TableauEmbedNode) (s : RenderState)
    (w : JsSize) (h : ℚ) (picked : Option TableauParams) :
    (persistSize el false s w h).calls = [] ∧
    (persistSize el false s w h).node = el ∧
    removeOp false el = [] ∧
    editOp false = [] ∧
    onClickRun picked false = [] := by
  refine ⟨rfl, rfl, rfl, rfl, ?_⟩
  cases picked <;> rfl

/-- C10: the object handed to the host update callback by `persistSize` is
the element with only `attrs.width` and `attrs.height` replaced: type,
children, server, workbook, view, toolbar, inline flag and label are
preserved. -/
theorem persist_size_preserves_fields (el : TableauEmbedNode)
    (s : RenderState) (w : JsSize) (h : ℚ) :
    (persistSize el true s w h).calls =
      [HostCall.update (persistNode el w h)] ∧
    (persistNode el w h).type = el.type ∧
    (persistNode el w h).children = el.children ∧
    (persistNode el w h).attrs.server = el.attrs.server ∧
    (persistNode el w h).attrs.workbook = el.attrs.workbook ∧
    (persistNode el w h).attrs.view = el.attrs.view ∧
    (persistNode el w h).attrs.toolbar = el.attrs.toolbar ∧
    (persistNode el w h).attrs.inl = el.attrs.inl ∧
    (persistNode el w h).attrs.label = el.attrs.label ∧
    (persistNode el w h).attrs.width = w ∧
    (persistNode el w h).attrs.height = JsSize.num h :=
  ⟨rfl, rfl, rfl, rfl, rfl, rfl, rfl, rfl, rfl, rfl, rfl⟩
